import Mathlib

/-!
Shallow embedding of the query cache engine in `src/queryCache.js`
(riipen/react-query): the entry state machine (`switchActions` /
`queryReducer`), entry construction (`makeQuery`), the fetch engine
(`tryFetchData` / `query.fetch`), cancellation (`query.cancel` /
`query.cancelInterval`) and `queryCache.prefetchQuery`.

Modelling conventions:
- `D` is the type of fetched data, `E` the type of errors.  A JavaScript
  value that may be `undefined`/`null` is an `Option`.
- `Date.now()` is an explicit `now : Nat` argument.
- Action updaters are Lean functions; a JS non-function updater value `v`
  corresponds to the constant function `fun _ => v` (see `functionalUpdate`).
- A thrown exception in `switchActions` (the `default: throw` branch) is
  `none`; the reducer is otherwise total on the eight defined action types.
- Promises/timer handles are modelled by their identity (`Option Nat`:
  `some id` when the handle exists).  The event loop is modelled by running
  an attempt to completion against a `script` of settlement outcomes for
  the caller-supplied fetch operation; an exhausted script means the
  operation is still pending.  The model fixes `isDocumentVisible() = true`
  and no concurrent cancellation during the retry loop (the claims that use
  it assume an active environment and no cancellation); retry delays are
  irrelevant once time is explicit.
-/

/-- The four entry statuses (`statusIdle`/`statusLoading`/`statusSuccess`/
`statusError` from `utils`). -/
inductive Status where
  | idle
  | loading
  | success
  | error
deriving DecidableEq, Repr

/-- The visible state snapshot of a query entry (`query.state`): the fields
written by `switchActions`, plus the four derived booleans that
`queryReducer` assigns onto every new state. -/
structure QueryState (D E : Type) where
  status : Status
  error : Option E
  isFetching : Bool
  canFetchMore : Option Bool
  failureCount : Nat
  isStale : Bool
  markedForGarbageCollection : Bool
  data : Option D
  updatedAt : Nat
  isLoading : Bool
  isSuccess : Bool
  isError : Bool
  isIdle : Bool
deriving DecidableEq, Repr

instance (D E : Type) : Inhabited (QueryState D E) :=
  ⟨⟨Status.idle, none, false, none, 0, false, false, none, 0,
    false, false, false, false⟩⟩

/-- The action payloads dispatched to `queryReducer`.  The `unknown` case
stands for any `action.type` other than the eight defined constants, which
the source handles in the `default:` branch by throwing. -/
inductive QueryAction (D E : Type) where
  | init (initialStatus : Status) (initialData : Option D)
      (hasInitialData : Bool) (isStale : Bool)
  | failed
  | markStale
  | markGC
  | fetch
  | success (updater : Option D → Option D) (canFetchMore : Option Bool)
  | error (cancelled : Bool) (err : E)
  | setState (updater : QueryState D E → QueryState D E)
  | unknown (tag : String)

/-- Modelled from the spec: `functionalUpdate` lives in `utils.js`, which is
not part of the provided sources; per the spec, `succeeded(updater)` commits
`data = updater(priorData)` and `externalSet(updater)` replaces the state
via `updater(priorState)`.  Updaters are modelled as functions; the JS case
of a plain value `v` as updater is the constant function `fun _ => v`. -/
def functionalUpdate {α β : Type} (updater : α → β) (input : α) : β :=
  updater input

/-- The pure transition function `switchActions(state, action)`.  The prior
state is `Option` because the `Init` action is dispatched with
`state = undefined` and ignores it; every other action reads fields of the
prior state, so it is modelled only for a present prior state.  `none` as a
result models the thrown `Error` of the `default:` branch. -/
def switchActions {D E : Type} (now : Nat) (state : Option (QueryState D E)) :
    QueryAction D E → Option (QueryState D E)
  | .init initialStatus initialData hasInitialData isStale =>
      -- the derived booleans are absent from the object literal in the
      -- source; `queryReducer` assigns them, so they are initialised to
      -- `false` here and always overwritten before the state is returned.
      some { status := initialStatus
             error := none
             isFetching := !hasInitialData || decide (initialStatus = .loading)
             canFetchMore := some false
             failureCount := 0
             isStale := isStale
             markedForGarbageCollection := false
             data := initialData
             updatedAt := if hasInitialData then now else 0
             isLoading := false
             isSuccess := false
             isError := false
             isIdle := false }
  | .failed =>
      state.map fun s => { s with failureCount := s.failureCount + 1 }
  | .markStale =>
      state.map fun s => { s with isStale := true }
  | .markGC =>
      state.map fun s => { s with markedForGarbageCollection := true }
  | .fetch =>
      state.map fun s =>
        { s with status := if s.data.isSome then .success else .loading
                 isFetching := true
                 failureCount := 0 }
  | .success updater canFetchMore =>
      state.map fun s =>
        { s with status := .success
                 data := functionalUpdate updater s.data
                 error := none
                 isStale := false
                 isFetching := false
                 canFetchMore := canFetchMore
                 updatedAt := now
                 failureCount := 0 }
  | .error cancelled err =>
      state.map fun s =>
        if cancelled then
          { s with isFetching := false, isStale := true }
        else
          { s with isFetching := false
                   isStale := true
                   status := .error
                   error := some err }
  | .setState updater =>
      state.map fun s => functionalUpdate updater s
  | .unknown _ => none

/-- The `Object.assign` in `queryReducer` that recomputes the four derived
booleans from `newState.status`. -/
def assignDerived {D E : Type} (s : QueryState D E) : QueryState D E :=
  { s with isLoading := decide (s.status = .loading)
           isSuccess := decide (s.status = .success)
           isError := decide (s.status = .error)
           isIdle := decide (s.status = .idle) }

/-- `queryReducer(state, action)`: apply `switchActions`, then assign the
derived booleans onto the new state. -/
def queryReducer {D E : Type} (now : Nat) (state : Option (QueryState D E))
    (action : QueryAction D E) : Option (QueryState D E) :=
  (switchActions now state action).map assignDerived

/-- In-engine dispatch of a known action on a present state.  The program
only ever dispatches the eight defined action types on an existing state,
for which `queryReducer` always returns `some`; the `getD` fallback is
unreachable there (the `unknown` case is settled separately). -/
def applyAction {D E : Type} (now : Nat) (action : QueryAction D E)
    (s : QueryState D E) : QueryState D E :=
  (queryReducer now (some s) action).getD s

/-- The initial state computed by `makeQuery` (lines 248–276): resolve
`initialData`, derive `hasInitialData`, `isStale` and `initialStatus`, and
run the `Init` action through `queryReducer` on an undefined prior state. -/
def initQueryState {D E : Type} (now : Nat) (enabled : Bool)
    (initialData : Option D) : Option (QueryState D E) :=
  let hasInitialData : Bool := initialData.isSome
  let isStale : Bool := !enabled || !hasInitialData
  let initialStatus : Status :=
    if hasInitialData then .success else if enabled then .loading else .idle
  queryReducer now none
    (.init initialStatus initialData hasInitialData isStale)

/-- The `retry` configuration option: a boolean, a retry count, or a
predicate of `(failureCount, error)`. -/
inductive RetryConfig (E : Type) where
  | bool (b : Bool)
  | count (n : Nat)
  | pred (f : Nat → E → Bool)

/-- The retry-continuation test in `tryFetchData`:
`retry === true || failureCount <= retry || (typeof retry === 'function'
&& retry(failureCount, error))`.  For `retry = false` the JS comparison
coerces to `failureCount <= 0`; for a function, `failureCount <= retry` is
a NaN comparison and always false. -/
def shouldRetry {E : Type} (cfg : RetryConfig E) (failureCount : Nat)
    (err : E) : Bool :=
  match cfg with
  | .bool true => true
  | .bool false => decide (failureCount ≤ 0)
  | .count n => decide (failureCount ≤ n)
  | .pred f => f failureCount err

/-- One scripted settlement of the caller-supplied fetch operation. -/
inductive AttemptResult (D E : Type) where
  | ok (d : D)
  | fail (e : E)

/-- The retry loop `tryFetchData`, run against a script of settlements: each
recursive entry into the loop is one invocation of the fetch operation and
consumes one script element.  Returns the resulting state, the outcome
(`none` when the script is exhausted, i.e. the current invocation is still
pending), and the number of invocations made.  On a failed attempt the loop
dispatches `Failed`, then retries per `shouldRetry` on the state's new
`failureCount`, else rethrows the error.  (Environment fixed active and
uncancelled, see the module header.) -/
def tryFetchData {D E : Type} (retry : RetryConfig E) (now : Nat)
    (s : QueryState D E) :
    List (AttemptResult D E) → QueryState D E × Option (Except E D) × Nat
  | [] => (s, none, 1)
  | .ok d :: _ => (s, some (.ok d), 1)
  | .fail e :: rest =>
      let s' := applyAction now .failed s
      if shouldRetry retry s'.failureCount e then
        let r := tryFetchData retry now s' rest
        (r.1, r.2.1, r.2.2 + 1)
      else
        (s', some (.error e), 1)

/-- The slice of the resolved entry configuration that the modelled engine
reads: `enabled`, `retry`, `isDataEqual`. -/
structure QueryConfig (D E : Type) where
  enabled : Bool
  retry : RetryConfig E
  isDataEqual : Option D → D → Bool

/-- A query entry as the engine sees it: visible state, the deduplicated
in-flight promise (`query.promise`, by identity), the cancellation marker
(`query.cancelled`), the refetch-interval handle (`query.refetchIntervalId`),
whether an attempt-supplied cancel hook is registered (`query.cancelPromises`),
and an instrumentation counter of fetch-operation invocations used to state
the deduplication and retry-bound properties. -/
structure Query (D E : Type) where
  config : QueryConfig D E
  state : QueryState D E
  promise : Option Nat
  cancelled : Bool
  refetchIntervalId : Option Nat
  cancelPromises : Bool
  fetchCount : Nat

/-- Entry construction (`makeQuery`): initial state via `initQueryState`;
no in-flight promise, no cancellation marker, no interval, no cancel hook. -/
def makeQuery {D E : Type} (now : Nat) (cfg : QueryConfig D E)
    (initialData : Option D) : Query D E :=
  { config := cfg
    state := (initQueryState now cfg.enabled initialData).getD default
    promise := none
    cancelled := false
    refetchIntervalId := none
    cancelPromises := false
    fetchCount := 0 }

/-- `query.cancelInterval`: clear the refetch interval and drop its handle. -/
def Query.cancelInterval {D E : Type} (q : Query D E) : Query D E :=
  { q with refetchIntervalId := none }

/-- `query.cancel`: set the cancellation marker, clear the refetch interval,
invoke the attempt-supplied cancel hook if one is registered (the returned
Bool records whether it was invoked), and delete `query.promise` without
awaiting it.  The entry's visible `state` is not dispatched to.
(`notifyGlobalListeners` is an external effect, not modelled.) -/
def Query.cancel {D E : Type} (q : Query D E) : Query D E × Bool :=
  ({ q.cancelInterval with cancelled := true, promise := none },
   q.cancelPromises)

/-- The result of one call to `query.fetch`: the updated entry, the identity
of the promise returned to the caller, the settlement of that promise
(`none` when it is still pending), and the number of fetch-operation
invocations this call performed. -/
structure FetchResult (D E : Type) where
  query : Query D E
  promiseId : Nat
  outcome : Option (Except E D)
  calls : Nat

/-- `query.fetch`: if `query.promise` exists, return it unchanged (the
entry, the promise identity, and zero invocations).  Otherwise clear the
cancellation marker, install a fresh promise, dispatch `Fetch`, run
`tryFetchData`; on success commit via `query.setData` (a `Success` dispatch
whose updater keeps the old data when `config.isDataEqual(old, data)`) and
delete the promise; on terminal failure dispatch `Error` (not cancelled,
since the model runs without concurrent cancellation) and delete the
promise.  Per-instance `onSuccess`/`onError`/`onSettled` callbacks and
`scheduleStaleTimeout` are external effects, not modelled. -/
def Query.fetch {D E : Type} (now fresh : Nat)
    (script : List (AttemptResult D E)) (q : Query D E) : FetchResult D E :=
  match q.promise with
  | some p => ⟨q, p, none, 0⟩
  | none =>
      let q1 : Query D E :=
        { q with promise := some fresh
                 cancelled := false
                 state := applyAction now .fetch q.state }
      let r := tryFetchData q.config.retry now q1.state script
      let q2 : Query D E :=
        { q1 with state := r.1, fetchCount := q.fetchCount + r.2.2 }
      match r.2.1 with
      | none => ⟨q2, fresh, none, r.2.2⟩
      | some (.ok d) =>
          let s3 := applyAction now
            (.success (fun old => if q.config.isDataEqual old d then old
                                  else some d) none) q2.state
          ⟨{ q2 with state := s3, promise := none }, fresh,
           some (.ok d), r.2.2⟩
      | some (.error e) =>
          let s3 := applyAction now (.error false e) q2.state
          ⟨{ q2 with state := s3, promise := none }, fresh,
           some (.error e), r.2.2⟩

/-- `queryCache.prefetchQuery` from an already-built entry: await
`query.fetch()`; a rejection is rethrown only when `throwOnError` is set,
otherwise swallowed; resolve with `query.state.data`.  `none` models a
fetch that never settles (the `await` never returns). -/
def prefetchQuery {D E : Type} (now fresh : Nat)
    (script : List (AttemptResult D E)) (throwOnError : Bool)
    (q : Query D E) : Option (Except E (Option D)) × Query D E :=
  let r := Query.fetch now fresh script q
  match r.outcome with
  | none => (none, r.query)
  | some (.ok _) => (some (.ok r.query.state.data), r.query)
  | some (.error e) =>
      if throwOnError then (some (.error e), r.query)
      else (some (.ok r.query.state.data), r.query)

/-- The spec's claimed invariant relating the visible `isFetching` flag to
the existence of the in-flight operation. -/
def fetchingInvariant {D E : Type} (q : Query D E) : Prop :=
  q.state.isFetching = q.promise.isSome

/-! ## Helper lemmas -/

/-- The retry loop never changes the `data` field: a failed attempt only
increments `failureCount`. -/
theorem tryFetchData_data {D E : Type} (retry : RetryConfig E) (now : Nat) :
    ∀ (script : List (AttemptResult D E)) (s : QueryState D E),
      (tryFetchData retry now s script).1.data = s.data := by
  intro script
  induction script with
  | nil => intro s; rfl
  | cons a rest ih =>
      intro s
      cases a with
      | ok d => rfl
      | fail e =>
          simp only [tryFetchData]
          split
          · rw [ih]
            simp [applyAction, queryReducer, switchActions, assignDerived]
          · simp [applyAction, queryReducer, switchActions, assignDerived]

/-- The retry loop never changes the `isFetching` flag. -/
theorem tryFetchData_isFetching {D E : Type} (retry : RetryConfig E)
    (now : Nat) :
    ∀ (script : List (AttemptResult D E)) (s : QueryState D E),
      (tryFetchData retry now s script).1.isFetching = s.isFetching := by
  intro script
  induction script with
  | nil => intro s; rfl
  | cons a rest ih =>
      intro s
      cases a with
      | ok d => rfl
      | fail e =>
          simp only [tryFetchData]
          split
          · rw [ih]
            simp [applyAction, queryReducer, switchActions, assignDerived]
          · simp [applyAction, queryReducer, switchActions, assignDerived]

/-! ## Claims -/

/-- C1: for every prior state `s` and every `Error(error, cancelled)` action,
`switchActions` returns a state with `isFetching = false` and
`isStale = true`; when not cancelled it additionally sets `status = error`
and stores the error, and when cancelled it leaves `status` and `error`
exactly as they were in `s`. -/
theorem C1_error_transition {D E : Type} (now : Nat) (s : QueryState D E)
    (c : Bool) (e : E) :
    ∃ s', switchActions now (some s) (.error c e) = some s' ∧
      s'.isFetching = false ∧ s'.isStale = true ∧
      s'.status = (if c then s.status else .error) ∧
      s'.error = (if c then s.error else some e) := by
  cases c <;> simp [switchActions]

/-- C2 counterexample: with no initial data and `enabled = false`, the claim
predicts `isFetching = false` (no-initial-data AND enabled), but the init
transition at construction yields `isFetching = true`: the source computes
`!hasInitialData || initialStatus === 'loading'`, which is true whenever
there is no initial data, regardless of `enabled`. -/
theorem C2_counterexample :
    ((initQueryState 0 false (none : Option Nat) :
        Option (QueryState Nat Nat)).map (fun s => s.isFetching))
      = some true ∧
    (((none : Option Nat).isNone && false) = false) := by
  constructor
  · rfl
  · rfl

/-- C2 amended: the state produced by the init transition at entry
construction has `isFetching = true` if and only if there is no initial
data — the `enabled` flag plays no role (a disabled entry with no initial
data still starts with `isFetching = true`). -/
theorem C2_init_isFetching {D E : Type} (now : Nat) (enabled : Bool)
    (d : Option D) :
    ((initQueryState now enabled d : Option (QueryState D E)).map
        (fun s => s.isFetching)) = some d.isNone := by
  cases d <;> cases enabled <;>
    simp [initQueryState, queryReducer, switchActions, assignDerived]

/-- C6: none of the `Failed`, `MarkStale`, `MarkGC`, `Fetch` and `Error`
(cancelled or not) transitions changes `updatedAt`; the `Success`
transition is the one that advances it (to the current time). -/
theorem C6_updatedAt {D E : Type} (now : Nat) (s : QueryState D E)
    (c : Bool) (e : E) (u : Option D → Option D) (cfm : Option Bool) :
    (switchActions now (some s) .failed).map (fun x => x.updatedAt)
        = some s.updatedAt ∧
    (switchActions now (some s) .markStale).map (fun x => x.updatedAt)
        = some s.updatedAt ∧
    (switchActions now (some s) .markGC).map (fun x => x.updatedAt)
        = some s.updatedAt ∧
    (switchActions now (some s) .fetch).map (fun x => x.updatedAt)
        = some s.updatedAt ∧
    (switchActions now (some s) (.error c e)).map (fun x => x.updatedAt)
        = some s.updatedAt ∧
    (switchActions now (some s) (.success u cfm)).map (fun x => x.updatedAt)
        = some now := by
  cases c <;> simp [switchActions]

/-- C7: for every prior state (present or undefined), an action whose type
is none of the eight defined constants hits the `default:` branch, which
throws (modelled as `none`): the unknown event is neither silently ignored
nor does it return the prior state. -/
theorem C7_unknown_throws {D E : Type} (now : Nat)
    (st : Option (QueryState D E)) (s : QueryState D E) (tag : String) :
    switchActions now st (.unknown tag) = none ∧
    switchActions now (some s) (.unknown tag) ≠ some s := by
  constructor
  · cases st <;> rfl
  · intro h
    simp [switchActions] at h

/-- A concrete resolved configuration: enabled, `retry = 2`, an
`isDataEqual` that never judges data equal. -/
def cfgRetry2 : QueryConfig Nat Nat := ⟨true, .count 2, fun _ _ => false⟩

/-- A concrete resolved configuration with `retry = 0` (no retries). -/
def cfgRetry0 : QueryConfig Nat Nat := ⟨true, .count 0, fun _ _ => false⟩

/-- A freshly constructed enabled entry with no initial data. -/
def c3Query : Query Nat Nat := makeQuery 0 cfgRetry2 none

/-- C3 counterexample: a freshly constructed enabled entry with no initial
data is reachable and has `isFetching = true` while `query.promise` does not
exist, so the claimed invariant "`isFetching` iff the in-flight operation is
pending" does not hold on every reachable entry. -/
theorem C3_counterexample :
    c3Query.state.isFetching = true ∧ c3Query.promise = none := by
  exact ⟨rfl, rfl⟩

/-- C3 amended: the invariant `isFetching = (query.promise exists)` is
preserved by every `fetch` call — deduplicated return, a still-pending
attempt, and successful or failed settlement.  (It does not hold at
construction without initial data, and `cancel` deletes the promise without
clearing `isFetching`, so those operations are excluded.) -/
theorem C3_fetch_preserves_invariant {D E : Type} (now fresh : Nat)
    (script : List (AttemptResult D E)) (q : Query D E)
    (h : fetchingInvariant q) :
    fetchingInvariant (Query.fetch now fresh script q).query := by
  cases hq : q.promise with
  | some p =>
      unfold fetchingInvariant at h ⊢
      simp only [Query.fetch, hq]
      rw [h, hq]
  | none =>
      unfold fetchingInvariant
      simp only [Query.fetch, hq]
      rcases ho : (tryFetchData q.config.retry now
          (applyAction now .fetch q.state) script).2.1 with _ | r
      · simp only [ho]
        rw [tryFetchData_isFetching]
        simp [applyAction, queryReducer, switchActions, assignDerived]
      · cases r with
        | ok d =>
            simp only [ho]
            simp [applyAction, queryReducer, switchActions, assignDerived]
        | error e =>
            simp only [ho]
            simp [applyAction, queryReducer, switchActions, assignDerived]

/-- An entry with initial data, so that `isFetching` starts false and the
invariant holds at construction. -/
def c3InvQuery : Query Nat Nat := makeQuery 0 cfgRetry2 (some 7)

/-- C3 witness: the amended invariant-preservation theorem applied to a
concrete entry that satisfies the invariant and a concrete failing fetch. -/
theorem C3_witness :
    fetchingInvariant c3InvQuery ∧
    fetchingInvariant (Query.fetch 1 2 [AttemptResult.fail 9]
        c3InvQuery).query := by
  exact ⟨rfl, C3_fetch_preserves_invariant 1 2 [AttemptResult.fail 9]
    c3InvQuery rfl⟩

/-- C4: with `retry = 2` and a fetch operation that rejects on every
attempt (environment active, no cancellation), `fetch` invokes the
operation exactly 3 times (initial attempt plus 2 retries), and the final
state has `failureCount = 3` and `status = error`; the returned promise
rejects with the last error. -/
theorem C4_retry_bound {D E : Type} (now fresh : Nat) (e : E)
    (rest : List (AttemptResult D E)) (q : Query D E)
    (hp : q.promise = none) (hr : q.config.retry = .count 2) :
    (Query.fetch now fresh
        (.fail e :: .fail e :: .fail e :: rest) q).calls = 3 ∧
    (Query.fetch now fresh
        (.fail e :: .fail e :: .fail e :: rest) q).query.state.failureCount
      = 3 ∧
    (Query.fetch now fresh
        (.fail e :: .fail e :: .fail e :: rest) q).query.state.status
      = .error ∧
    (Query.fetch now fresh
        (.fail e :: .fail e :: .fail e :: rest) q).outcome
      = some (.error e) := by
  simp [Query.fetch, hp, hr, tryFetchData, applyAction, queryReducer,
        switchActions, assignDerived, shouldRetry, functionalUpdate]

/-- C4 witness: the retry bound applied to a concrete entry with
`retry = 2` and a concretely failing operation. -/
theorem C4_witness :
    (Query.fetch 0 1 [.fail 9, .fail 9, .fail 9] c3Query).calls = 3 ∧
    (Query.fetch 0 1
        [.fail 9, .fail 9, .fail 9] c3Query).query.state.failureCount = 3 ∧
    (Query.fetch 0 1 [.fail 9, .fail 9, .fail 9] c3Query).query.state.status
      = .error ∧
    (Query.fetch 0 1 [.fail 9, .fail 9, .fail 9] c3Query).outcome
      = some (.error 9) := by
  exact C4_retry_bound 0 1 9 [] c3Query rfl rfl

/-- C5: if `query.promise` exists, `fetch` returns that same pending
operation with the entry completely unchanged and zero invocations of the
fetch operation; hence two `fetch` calls on the same entry before the first
resolution perform exactly one underlying invocation and share one
promise. -/
theorem C5_dedup {D E : Type} (now now' fresh fresh' : Nat)
    (script : List (AttemptResult D E)) (q q' : Query D E) (p : Nat) :
    (q.promise = some p →
      Query.fetch now fresh script q = ⟨q, p, none, 0⟩) ∧
    (q'.promise = none →
      (Query.fetch now fresh [] q').calls = 1 ∧
      (Query.fetch now' fresh' []
          (Query.fetch now fresh [] q').query).calls = 0 ∧
      (Query.fetch now' fresh' []
          (Query.fetch now fresh [] q').query).promiseId
        = (Query.fetch now fresh [] q').promiseId ∧
      (Query.fetch now' fresh' []
          (Query.fetch now fresh [] q').query).query
        = (Query.fetch now fresh [] q').query) := by
  constructor
  · intro h
    simp [Query.fetch, h]
  · intro h
    simp [Query.fetch, h, tryFetchData]

/-- An entry carrying an existing in-flight promise. -/
def c5Pending : Query Nat Nat := { c3InvQuery with promise := some 5 }

/-- C5 witness: deduplication applied to a concrete entry with an existing
promise, and the one-shared-attempt consequence applied to a concrete idle
entry. -/
theorem C5_witness :
    (Query.fetch 0 1 [AttemptResult.ok 3] c5Pending
      = ⟨c5Pending, 5, none, 0⟩) ∧
    (Query.fetch 0 1 [] c3Query).calls = 1 ∧
    (Query.fetch 2 3 [] (Query.fetch 0 1 [] c3Query).query).calls = 0 ∧
    (Query.fetch 2 3 [] (Query.fetch 0 1 [] c3Query).query).promiseId
      = (Query.fetch 0 1 [] c3Query).promiseId ∧
    (Query.fetch 2 3 [] (Query.fetch 0 1 [] c3Query).query).query
      = (Query.fetch 0 1 [] c3Query).query := by
  refine ⟨(C5_dedup 0 2 1 3 [AttemptResult.ok 3] c5Pending c3Query 5).1
    rfl, ?_⟩
  exact (C5_dedup 0 2 1 3 [AttemptResult.ok 3] c5Pending c3Query 5).2 rfl

/-- An entry with no in-flight operation but an active refetch interval. -/
def c8Interval : Query Nat Nat :=
  { c3InvQuery with refetchIntervalId := some 1 }

/-- C8 counterexample: cancelling an entry that has no in-flight operation
but an active refetch interval clears that interval, so it is not a no-op
on the entry's observable behaviour (periodic refetching stops). -/
theorem C8_counterexample :
    c8Interval.promise = none ∧
    c8Interval.refetchIntervalId = some 1 ∧
    (c8Interval.cancel).1.refetchIntervalId = none ∧
    (c8Interval.cancel).1 ≠ c8Interval := by
  refine ⟨rfl, rfl, rfl, ?_⟩
  intro h
  have h2 := congrArg Query.refetchIntervalId h
  simp [Query.cancel, Query.cancelInterval, c8Interval] at h2

/-- C8 amended: `cancel` is idempotent on the entry itself — a second
`cancel` leaves the entry exactly as the first left it; and on an entry
with no in-flight operation and no active refetch interval, `cancel`
changes nothing except setting the internal cancellation marker (the cancel
hook, if still registered, is invoked again).  In general it is not a
no-op: it clears an active refetch interval. -/
theorem C8_cancel_amended {D E : Type} (q q' : Query D E) :
    ((q.cancel).1.cancel).1 = (q.cancel).1 ∧
    (q'.promise = none → q'.refetchIntervalId = none →
      (q'.cancel).1 = { q' with cancelled := true } ∧
      (q'.cancel).2 = q'.cancelPromises) := by
  constructor
  · rfl
  · intro h1 h2
    cases q'
    simp only [Query.cancel, Query.cancelInterval] at *
    subst h1
    subst h2
    refine ⟨?_, ?_⟩ <;> first | rfl | trivial

/-- C8 witness: the amended cancellation properties applied to a concrete
entry with no in-flight operation and no interval. -/
theorem C8_witness :
    ((c3InvQuery.cancel).1.cancel).1 = (c3InvQuery.cancel).1 ∧
    (c3InvQuery.cancel).1 = { c3InvQuery with cancelled := true } ∧
    (c3InvQuery.cancel).2 = c3InvQuery.cancelPromises := by
  refine ⟨(C8_cancel_amended c3InvQuery c3InvQuery).1, ?_, ?_⟩
  · exact ((C8_cancel_amended c3InvQuery c3InvQuery).2 rfl rfl).1
  · exact ((C8_cancel_amended c3InvQuery c3InvQuery).2 rfl rfl).2

/-- C9: every state returned by `queryReducer` — for any prior state and
any action, including `SetState` with an arbitrary updater — has its four
derived booleans consistent with `status` (`isLoading` iff
`status = loading`, and so on), and at most one of them is true. -/
theorem C9_derived_flags {D E : Type} (now : Nat) (s s' : QueryState D E)
    (a : QueryAction D E) (h : queryReducer now (some s) a = some s') :
    s'.isLoading = decide (s'.status = .loading) ∧
    s'.isSuccess = decide (s'.status = .success) ∧
    s'.isError = decide (s'.status = .error) ∧
    s'.isIdle = decide (s'.status = .idle) ∧
    s'.isLoading.toNat + s'.isSuccess.toNat + s'.isError.toNat
      + s'.isIdle.toNat ≤ 1 := by
  unfold queryReducer at h
  obtain ⟨x, hx, hs⟩ := Option.map_eq_some'.mp h
  subst hs
  refine ⟨rfl, rfl, rfl, rfl, ?_⟩
  cases hst : x.status <;> simp [assignDerived, hst]

/-- A prior state whose four derived booleans are deliberately all set,
inconsistently with its `status`. -/
def c9Prior : QueryState Nat Nat :=
  ⟨.success, none, false, some false, 0, false, false, some 3, 5,
   true, true, true, true⟩

/-- The state `queryReducer` produces from `c9Prior` on `MarkStale`. -/
def c9After : QueryState Nat Nat :=
  ⟨.success, none, false, some false, 0, true, false, some 3, 5,
   false, true, false, false⟩

/-- C9 witness: the derived-boolean consistency applied to a concrete
reducer step (a `MarkStale` dispatch on a state with inconsistent flags). -/
theorem C9_witness :
    c9After.isLoading = decide (c9After.status = .loading) ∧
    c9After.isSuccess = decide (c9After.status = .success) ∧
    c9After.isError = decide (c9After.status = .error) ∧
    c9After.isIdle = decide (c9After.status = .idle) ∧
    c9After.isLoading.toNat + c9After.isSuccess.toNat + c9After.isError.toNat
      + c9After.isIdle.toNat ≤ 1 := by
  exact C9_derived_flags 0 c9Prior c9After .markStale (by rfl)

/-- C10: when `fetch` rejects (terminal failure) and `throwOnError` is not
set, `prefetchQuery` swallows the error and resolves with the entry's
current `state.data`, which is exactly the data cached before the fetch
(`undefined` if none was cached); it rejects only when `throwOnError` is
set. -/
theorem C10_prefetch_swallows {D E : Type} (now fresh : Nat)
    (script : List (AttemptResult D E)) (q : Query D E) (e : E)
    (h : (Query.fetch now fresh script q).outcome = some (.error e)) :
    prefetchQuery now fresh script false q
      = (some (.ok ((Query.fetch now fresh script q).query.state.data)),
         (Query.fetch now fresh script q).query) ∧
    (Query.fetch now fresh script q).query.state.data = q.state.data ∧
    prefetchQuery now fresh script true q
      = (some (.error e), (Query.fetch now fresh script q).query) := by
  refine ⟨?_, ?_, ?_⟩
  · simp [prefetchQuery, h]
  · cases hq : q.promise with
    | some p => simp [Query.fetch, hq] at h
    | none =>
        simp only [Query.fetch, hq] at h ⊢
        rcases ho : (tryFetchData q.config.retry now
            (applyAction now .fetch q.state) script).2.1 with _ | r
        · simp [ho] at h
        · cases r with
          | ok d => simp [ho] at h
          | error e' =>
              simp only [ho]
              simp only [applyAction, queryReducer, switchActions,
                assignDerived, Option.map_some', Option.getD_some]
              rw [tryFetchData_data]
              simp
  · simp [prefetchQuery, h]

/-- An entry with previously cached data and no retries configured. -/
def c10Query : Query Nat Nat := makeQuery 0 cfgRetry0 (some 7)

/-- C10 witness: the prefetch error-swallowing behaviour applied to a
concrete entry with cached data `7` and an operation failing with `42`. -/
theorem C10_witness :
    prefetchQuery 3 1 [AttemptResult.fail 42] false c10Query
      = (some (.ok ((Query.fetch 3 1 [AttemptResult.fail 42]
            c10Query).query.state.data)),
         (Query.fetch 3 1 [AttemptResult.fail 42] c10Query).query) ∧
    (Query.fetch 3 1 [AttemptResult.fail 42] c10Query).query.state.data
      = c10Query.state.data ∧
    prefetchQuery 3 1 [AttemptResult.fail 42] true c10Query
      = (some (.error 42),
         (Query.fetch 3 1 [AttemptResult.fail 42] c10Query).query) := by
  exact C10_prefetch_swallows 3 1 [AttemptResult.fail 42] c10Query 42
    (by rfl)
